import Mathlib

/-!
Verification of the claim-processor agent's orchestration core.

The source is a LangGraph.js agent (`src/agent/graph.ts`, served by
`src/app.ts`).  The shallow embedding below translates:

* the message/state data model (`StateAnnotation.State.messages`),
* the routing function `shouldContinue` (graph.ts lines 97-123),
* the static graph wiring of `builder` (graph.ts lines 126-145),
* the HTTP entry point `app.get("/api/chat")` (app.ts lines 5-22).

The validation-gate node bodies (`validateClaimDetails.js`,
`validateApprovalRules.js`), the tool executors (`tools.js`) and the
LangGraph engine itself are imported by the source but their code is not
in the repository snapshot; where a claim depends on them they are
modelled from the spec, and each such definition says so in its doc
comment.
-/

namespace ClaimAgent

/-- Role of a turn in the message history (`_getType()` of a LangChain
`BaseMessage`: "human", "ai", "tool", "system"). -/
inductive Role where
  | user
  | ai
  | tool
  | system
deriving DecidableEq, Repr

/-- A proposed tool call attached to an AI message: a tool name plus a
structured argument payload (modelled as key/value pairs). -/
structure ToolCall where
  name : String
  args : List (String × String)
deriving DecidableEq, Repr

/-- One turn of the conversation.  `tool_calls` is `none` when the field
is absent (non-AI messages, or an AI message without tool calls), mirroring
the optional `tool_calls` of LangChain's `AIMessage`. -/
structure Message where
  role : Role
  content : String
  tool_calls : Option (List ToolCall)
deriving DecidableEq, Repr

/-- The graph state: `StateAnnotation.State`, whose only field used by the
router and the entry point is the ordered message list. -/
structure AgentState where
  messages : List Message
deriving DecidableEq, Repr

/-- The tool-call list of a message as the router sees it:
`messageCastAI.tool_calls?.length` treats an absent field like an empty
array, so we read the payload through `Option.getD []`. -/
def toolCallsOf (m : Message) : List ToolCall :=
  m.tool_calls.getD []

/-- The nodes of the compiled graph: `"agent"`, `"tools"`,
`"prepare_claim_detail"`, `"execute_approve_payment"`, plus the virtual
`"__start__"` and `"__end__"` nodes (graph.ts lines 132-135). -/
inductive Node where
  | start
  | agent
  | tools
  | prepare_claim_detail
  | execute_approve_payment
  | endNode
deriving DecidableEq, Repr

/-- The targets the conditional edge can name for one tool call
(graph.ts lines 144-145 list them as `"tools"`, `"prepare_claim_detail"`,
`"execute_approve_payment"` and `END`; the per-call mapping never picks
`END`, see `routeTurn`). -/
inductive Target where
  | tools
  | prepare_claim_detail
  | execute_approve_payment
deriving DecidableEq, Repr

/-- The per-action branch of `shouldContinue` (graph.ts lines 112-122):
`"create_or_update_claim"` goes to the claim-detail gate node,
`"approve_payment"` to the approval-rule gate node, and every other name
to the generic `ToolNode`. -/
def routeToolCall (tc : ToolCall) : Target :=
  if tc.name = "create_or_update_claim" then Target.prepare_claim_detail
  else if tc.name = "approve_payment" then Target.execute_approve_payment
  else Target.tools

/-- Outcome of the routing function: `ends` is LangGraph's `END`,
`routeErr` is the `throw new Error("Expected tool_calls ...")` at
graph.ts lines 108-110, `crash` is the TypeError JavaScript raises when
`messages` is empty and `messages[messages.length - 1]` is `undefined`,
and `targets` is the array of node names returned per tool call. -/
inductive RouteResult where
  | crash
  | ends
  | routeErr
  | targets (ts : List Target)
deriving DecidableEq, Repr

/-- Body of `shouldContinue` applied to the last message (graph.ts lines
100-122): return `END` unless the message is an AI message with a
non-empty `tool_calls` array; the subsequent emptiness re-check throws;
otherwise map every tool call to its target node name. -/
def routeTurn (lastMessage : Message) : RouteResult :=
  if lastMessage.role ≠ Role.ai ∨ (toolCallsOf lastMessage).length = 0 then
    RouteResult.ends
  else if (toolCallsOf lastMessage).length = 0 then
    RouteResult.routeErr
  else
    RouteResult.targets ((toolCallsOf lastMessage).map routeToolCall)

/-- The routing function `shouldContinue` (graph.ts lines 97-123): it reads
`messages[messages.length - 1]` and applies `routeTurn` to it; on an empty
history the JavaScript dereferences `undefined` and crashes. -/
def shouldContinue (state : AgentState) : RouteResult :=
  match state.messages.getLast? with
  | none => RouteResult.crash
  | some lastMessage => routeTurn lastMessage

/-- The unconditional (static) edges of `builder` (graph.ts lines
139-142): `__start__ → agent`, `tools → agent`,
`prepare_claim_detail → tools`, `execute_approve_payment → tools`.
`agent` leaves by the conditional edge and `__end__` has no successor. -/
def staticEdge : Node → Option Node
  | Node.start => some Node.agent
  | Node.tools => some Node.agent
  | Node.prepare_claim_detail => some Node.tools
  | Node.execute_approve_payment => some Node.tools
  | _ => none

/-- Following the static edges from `n`, does control reach the `agent`
(Reasoner) node within `k` hops? -/
def reachesAgentWithin : Nat → Node → Bool
  | _, Node.agent => true
  | 0, _ => false
  | Nat.succ k, n =>
    match staticEdge n with
    | some n2 => reachesAgentWithin k n2
    | none => false

/-- Modelled from the spec: the outcome of a validation gate.  The gate
bodies (`validateClaimDetails.js`, `validateApprovalRules.js`) are
imported by graph.ts but their code is not in the repository snapshot;
spec section 4.2 gives their contract: on success the gate re-emits the
action (possibly with enriched arguments) toward execution, on failure it
appends a synthetic tool-result turn naming the field that failed
validation and the tool is not called. -/
inductive GateResult where
  | approve (enrichedArgs : List (String × String))
  | reject (failedField : String)
deriving DecidableEq, Repr

/-- Modelled from the spec: a validation gate is a pure function of the
conversation state and the proposed action (spec section 4.2: "Both gates
are pure functions of (Conversation State, Proposed Action)"). -/
def Gate : Type := List Message → ToolCall → GateResult

/-- A tool-result turn carrying an executor's output. -/
def toolResultMsg (c : String) : Message :=
  ⟨Role.tool, c, none⟩

/-- Modelled from the spec: the synthetic tool-result turn a gate appends
on failure, "explaining which field failed validation" (spec section
4.2). -/
def rejectionMsg (failedField : String) : Message :=
  ⟨Role.tool, "validation failed on field " ++ failedField, none⟩

/-- Modelled from the spec: the record of gate approval appended to
history before the executor's result ("gate approval recorded first in
history", spec section 8). -/
def approvalMsg (toolName : String) : Message :=
  ⟨Role.tool, "gate approved " ++ toolName, none⟩

/-- Result of dispatching one proposed action: the turns appended to the
history, and the names of the tool executors actually invoked. -/
structure DispatchOut where
  appended : List Message
  invoked : List String
deriving DecidableEq, Repr

/-- Modelled from the spec: executing one proposed action at the target
chosen by the router (`routeToolCall`, which is source code).  The engine
and `ToolNode` are framework code outside the snapshot; spec sections
4.1-4.3 say each action is dispatched to its own resolved target: a
gate-free action runs its executor directly; a gated action runs its gate
first, and only an approved action reaches the executor (with the
approval recorded before the result), while a rejected action produces
only the rejection turn. -/
def dispatchCall (claimGate approvalGate : Gate) (execTool : ToolCall → String)
    (history : List Message) (tc : ToolCall) : DispatchOut :=
  match routeToolCall tc with
  | Target.tools =>
    ⟨[toolResultMsg (execTool tc)], [tc.name]⟩
  | Target.prepare_claim_detail =>
    match claimGate history tc with
    | GateResult.approve args =>
      ⟨[approvalMsg tc.name, toolResultMsg (execTool ⟨tc.name, args⟩)], [tc.name]⟩
    | GateResult.reject f =>
      ⟨[rejectionMsg f], []⟩
  | Target.execute_approve_payment =>
    match approvalGate history tc with
    | GateResult.approve args =>
      ⟨[approvalMsg tc.name, toolResultMsg (execTool ⟨tc.name, args⟩)], [tc.name]⟩
    | GateResult.reject f =>
      ⟨[rejectionMsg f], []⟩

/-- Modelled from the spec: dispatching the whole batch of proposed
actions of one turn, in the order they appear, each seeing the history
extended by its predecessors' results (spec section 5: tool-result turns
are ordered by the action's position in the list). -/
def dispatchAll (claimGate approvalGate : Gate) (execTool : ToolCall → String) :
    List Message → List ToolCall → List Message × List String
  | _, [] => ([], [])
  | history, tc :: rest =>
    let out := dispatchCall claimGate approvalGate execTool history tc
    let tail := dispatchAll claimGate approvalGate execTool (history ++ out.appended) rest
    (out.appended ++ tail.1, out.invoked ++ tail.2)

/-- Run-level failures surfaced to the caller.  `stepBoundExceeded` is the
spec's `StepBoundExceeded` (the engine's recursion-limit error);
`invariantViolation` covers the router's throw and the crash on a missing
last message. -/
inductive RunError where
  | stepBoundExceeded
  | invariantViolation
deriving DecidableEq, Repr

/-- Modelled from the spec: the engine's driving loop (spec section 4.4).
The LangGraph engine is framework code outside the snapshot; the loop
invokes the Reasoner on the history, appends its turn, consults the
source routing function `shouldContinue`, stops with the history on
`END`, dispatches every proposed action in order otherwise, and recurses;
the step bound makes exceeding the configured recursion limit a reported
`stepBoundExceeded` failure. -/
def runLoop (reasoner : List Message → Message) (claimGate approvalGate : Gate)
    (execTool : ToolCall → String) : Nat → List Message → Except RunError (List Message)
  | 0, _ => Except.error RunError.stepBoundExceeded
  | fuel + 1, msgs =>
    match shouldContinue ⟨msgs ++ [reasoner msgs]⟩ with
    | RouteResult.ends => Except.ok (msgs ++ [reasoner msgs])
    | RouteResult.crash => Except.error RunError.invariantViolation
    | RouteResult.routeErr => Except.error RunError.invariantViolation
    | RouteResult.targets _ =>
      runLoop reasoner claimGate approvalGate execTool fuel
        (msgs ++ [reasoner msgs] ++
          (dispatchAll claimGate approvalGate execTool (msgs ++ [reasoner msgs])
            (toolCallsOf (reasoner msgs))).1)

/-- The recursion limit the entry point configures:
`{ recursionLimit: 15, ...config }` (app.ts line 19). -/
def recursionLimit : Nat := 15

/-- A user turn, `new HumanMessage(message)` (app.ts line 17). -/
def humanMessage (s : String) : Message :=
  ⟨Role.user, s, none⟩

/-- The chat run as the entry point performs it (app.ts lines 16-21):
invoke the graph on a single human message with the configured recursion
limit, and answer with `result.messages[result.messages.length - 1].content`. -/
def chatRun (reasoner : List Message → Message) (claimGate approvalGate : Gate)
    (execTool : ToolCall → String) (message : String) : Except RunError String :=
  match runLoop reasoner claimGate approvalGate execTool recursionLimit
      [humanMessage message] with
  | Except.ok msgs => Except.ok (((msgs.getLast?).map Message.content).getD "")
  | Except.error e => Except.error e

/-- An incoming request to `GET /api/chat`: the query string may carry a
`message` parameter and, as far as the client is concerned, a `thread_id`
parameter; the handler reads only `req.query.message` (app.ts line 11). -/
structure ChatRequest where
  messageParam : Option String
  threadIdParam : Option String
deriving DecidableEq, Repr

/-- The thread id the handler uses for a request: the module-level
constant `config = { configurable: { thread_id: "thread1" } }` (app.ts
line 5), the same for every request. -/
def usedThreadId (_req : ChatRequest) : String :=
  "thread1"

/-- The `GET /api/chat` handler (app.ts lines 10-22): it extracts only the
`message` query parameter, runs the graph under the constant thread id,
and responds with the final message's content. -/
def handleChat (reasoner : List Message → Message) (claimGate approvalGate : Gate)
    (execTool : ToolCall → String) (req : ChatRequest) :
    String × Except RunError String :=
  (usedThreadId req,
    chatRun reasoner claimGate approvalGate execTool (req.messageParam.getD ""))

/-- Recognizer for the router's error outcome (the unreachable throw). -/
def isRouteErr : RouteResult → Bool
  | RouteResult.routeErr => true
  | _ => false

theorem routeTurn_no_calls (m : Message)
    (h : m.role ≠ Role.ai ∨ (toolCallsOf m).length = 0) :
    routeTurn m = RouteResult.ends := by
  unfold routeTurn
  rw [if_pos h]

theorem routeTurn_with_calls (m : Message) (h1 : m.role = Role.ai)
    (h2 : toolCallsOf m ≠ []) :
    routeTurn m = RouteResult.targets ((toolCallsOf m).map routeToolCall) := by
  have hlen : ¬((toolCallsOf m).length = 0) := by
    simpa [List.length_eq_zero] using h2
  have hcond : ¬(m.role ≠ Role.ai ∨ (toolCallsOf m).length = 0) := by
    push_neg
    exact ⟨h1, hlen⟩
  unfold routeTurn
  rw [if_neg hcond, if_neg hlen]

theorem shouldContinue_concat (msgs : List Message) (m : Message) :
    shouldContinue ⟨msgs ++ [m]⟩ = routeTurn m := by
  unfold shouldContinue
  rw [List.getLast?_concat]

theorem isRouteErr_routeTurn (m : Message) :
    isRouteErr (routeTurn m) = false := by
  unfold routeTurn
  by_cases h : m.role ≠ Role.ai ∨ (toolCallsOf m).length = 0
  · rw [if_pos h]; rfl
  · have hlen : ¬((toolCallsOf m).length = 0) := fun hl => h (Or.inr hl)
    rw [if_neg h, if_neg hlen]; rfl

theorem runLoop_stops (reasoner : List Message → Message) (claimGate approvalGate : Gate)
    (execTool : ToolCall → String) (fuel : Nat) (msgs : List Message)
    (hend : routeTurn (reasoner msgs) = RouteResult.ends) :
    runLoop reasoner claimGate approvalGate execTool (fuel + 1) msgs
      = Except.ok (msgs ++ [reasoner msgs]) := by
  unfold runLoop
  rw [shouldContinue_concat, hend]

theorem runLoop_always_proposing (reasoner : List Message → Message)
    (claimGate approvalGate : Gate) (execTool : ToolCall → String)
    (h1 : ∀ msgs, (reasoner msgs).role = Role.ai)
    (h2 : ∀ msgs, toolCallsOf (reasoner msgs) ≠ []) :
    ∀ fuel msgs, runLoop reasoner claimGate approvalGate execTool fuel msgs
      = Except.error RunError.stepBoundExceeded := by
  intro fuel
  induction fuel with
  | zero => intro msgs; rfl
  | succ k ih =>
    intro msgs
    have hsc : shouldContinue ⟨msgs ++ [reasoner msgs]⟩
        = RouteResult.targets ((toolCallsOf (reasoner msgs)).map routeToolCall) := by
      rw [shouldContinue_concat]
      exact routeTurn_with_calls _ (h1 msgs) (h2 msgs)
    unfold runLoop
    rw [hsc]
    exact ih _

theorem chatRun_no_calls (reasoner : List Message → Message)
    (claimGate approvalGate : Gate) (execTool : ToolCall → String) (message : String)
    (h2 : toolCallsOf (reasoner [humanMessage message]) = []) :
    chatRun reasoner claimGate approvalGate execTool message
      = Except.ok (reasoner [humanMessage message]).content := by
  have hend : routeTurn (reasoner [humanMessage message]) = RouteResult.ends :=
    routeTurn_no_calls _ (Or.inr (by rw [h2]; rfl))
  have hlim : recursionLimit = 14 + 1 := rfl
  have hrun := runLoop_stops reasoner claimGate approvalGate execTool 14
    [humanMessage message] hend
  unfold chatRun
  rw [hlim, hrun]
  simp [List.getLast?_concat]

/-- C1: for every assistant turn carrying at least one Proposed Action,
`shouldContinue` classifies each action independently by its name and
returns one target per action in the order the actions appear:
`create_or_update_claim` goes to the claim-detail gate node
(`prepare_claim_detail`), `approve_payment` goes to the approval-rule
gate node (`execute_approve_payment`), and every other name goes to the
generic tool dispatcher (`tools`). -/
theorem router_classifies_each_action_by_name (msgs : List Message) (m : Message)
    (h1 : m.role = Role.ai) (h2 : toolCallsOf m ≠ []) :
    shouldContinue ⟨msgs ++ [m]⟩
      = RouteResult.targets ((toolCallsOf m).map routeToolCall) ∧
    (∀ tc : ToolCall,
      (tc.name = "create_or_update_claim" →
        routeToolCall tc = Target.prepare_claim_detail) ∧
      (tc.name = "approve_payment" →
        routeToolCall tc = Target.execute_approve_payment) ∧
      (tc.name ≠ "create_or_update_claim" → tc.name ≠ "approve_payment" →
        routeToolCall tc = Target.tools)) := by
  refine ⟨?_, ?_⟩
  · rw [shouldContinue_concat]
    exact routeTurn_with_calls m h1 h2
  · intro tc
    refine ⟨?_, ?_, ?_⟩
    · intro hn
      unfold routeToolCall
      rw [if_pos hn]
    · intro hn
      have hne : ¬(tc.name = "create_or_update_claim") := by
        rw [hn]; decide
      unfold routeToolCall
      rw [if_neg hne, if_pos hn]
    · intro hn1 hn2
      unfold routeToolCall
      rw [if_neg hn1, if_neg hn2]

/-- Witness for C1: a turn proposing `create_or_update_claim` then
`fraud_check` is classified to the claim gate and the generic
dispatcher, in that order. -/
theorem router_classifies_each_action_by_name_witness :
    shouldContinue
        ⟨[⟨Role.ai, "processing",
          some [⟨"create_or_update_claim", []⟩, ⟨"fraud_check", []⟩]⟩]⟩
      = RouteResult.targets [Target.prepare_claim_detail, Target.tools] := by
  have h := (router_classifies_each_action_by_name []
    ⟨Role.ai, "processing",
      some [⟨"create_or_update_claim", []⟩, ⟨"fraud_check", []⟩]⟩
    rfl (by decide)).1
  simpa [toolCallsOf, routeToolCall] using h

/-- C2: a Proposed Action named `create_or_update_claim` is always routed
to the claim-detail gate (source: `shouldContinue`), and — with the
gate/dispatch semantics modelled from the spec, the gate body being
absent from the snapshot — its executor is invoked only after the gate
approved, with the approval recorded before the result; on rejection the
tool is not invoked and only a synthetic tool-result turn naming the
failed field is appended. -/
theorem claim_tool_only_after_gate_approval (claimGate approvalGate : Gate)
    (execTool : ToolCall → String) (history : List Message) (tc : ToolCall)
    (hname : tc.name = "create_or_update_claim") :
    routeToolCall tc = Target.prepare_claim_detail ∧
    (∀ f, claimGate history tc = GateResult.reject f →
      dispatchCall claimGate approvalGate execTool history tc
        = ⟨[rejectionMsg f], []⟩) ∧
    (∀ args, claimGate history tc = GateResult.approve args →
      dispatchCall claimGate approvalGate execTool history tc
        = ⟨[approvalMsg tc.name, toolResultMsg (execTool ⟨tc.name, args⟩)],
            [tc.name]⟩) := by
  have hroute : routeToolCall tc = Target.prepare_claim_detail := by
    unfold routeToolCall
    rw [if_pos hname]
  refine ⟨hroute, ?_, ?_⟩
  · intro f hf
    simp [dispatchCall, hroute, hf]
  · intro args hargs
    simp [dispatchCall, hroute, hargs]

/-- Witness for C2: with a gate that rejects on a missing claimant
identity, dispatching a `create_or_update_claim` action appends only the
rejection turn and invokes no executor. -/
theorem claim_tool_only_after_gate_approval_witness :
    dispatchCall (fun _ _ => GateResult.reject "claimant identity")
      (fun _ _ => GateResult.approve []) (fun _ => "ok") []
      ⟨"create_or_update_claim", [("amount", "100")]⟩
      = ⟨[rejectionMsg "claimant identity"], []⟩ :=
  (claim_tool_only_after_gate_approval _ _ _ _ _ rfl).2.1 "claimant identity" rfl

/-- C3: when the Reasoner's turn carries zero Proposed Actions, the run
terminates (the routing function returns `END`) and the entry point
answers with exactly that turn's content. -/
theorem zero_actions_terminates_with_content (reasoner : List Message → Message)
    (claimGate approvalGate : Gate) (execTool : ToolCall → String) (message : String)
    (_h1 : (reasoner [humanMessage message]).role = Role.ai)
    (h2 : toolCallsOf (reasoner [humanMessage message]) = []) :
    runLoop reasoner claimGate approvalGate execTool recursionLimit
        [humanMessage message]
      = Except.ok [humanMessage message, reasoner [humanMessage message]] ∧
    chatRun reasoner claimGate approvalGate execTool message
      = Except.ok (reasoner [humanMessage message]).content := by
  have hend : routeTurn (reasoner [humanMessage message]) = RouteResult.ends :=
    routeTurn_no_calls _ (Or.inr (by rw [h2]; rfl))
  have hlim : recursionLimit = 14 + 1 := rfl
  refine ⟨?_, ?_⟩
  · rw [hlim]
    exact runLoop_stops reasoner claimGate approvalGate execTool 14
      [humanMessage message] hend
  · exact chatRun_no_calls reasoner claimGate approvalGate execTool message h2

/-- Witness for C3: a Reasoner that immediately answers "all done" with
no tool calls makes the run return "all done". -/
theorem zero_actions_terminates_with_content_witness :
    chatRun (fun _ => ⟨Role.ai, "all done", none⟩)
      (fun _ _ => GateResult.reject "f") (fun _ _ => GateResult.reject "f")
      (fun _ => "") "hello"
      = Except.ok "all done" :=
  (zero_actions_terminates_with_content (fun _ => ⟨Role.ai, "all done", none⟩)
    (fun _ _ => GateResult.reject "f") (fun _ _ => GateResult.reject "f")
    (fun _ => "") "hello" rfl rfl).2

/-- C4: every non-terminating node loops back to the Reasoner: from the
dispatcher node and from both validation-gate nodes the static edges of
the graph reach the `agent` node within two hops, and no such node has a
direct edge to `__end__`. -/
theorem nonterminating_paths_return_to_reasoner (n : Node)
    (h : n = Node.tools ∨ n = Node.prepare_claim_detail ∨
      n = Node.execute_approve_payment) :
    reachesAgentWithin 2 n = true ∧ staticEdge n ≠ some Node.endNode := by
  rcases h with h | h | h <;> subst h <;> exact ⟨by decide, by decide⟩

/-- Witness for C4: the claim-detail gate node reaches the Reasoner in at
most two hops and has no edge to `__end__`. -/
theorem nonterminating_paths_return_to_reasoner_witness :
    reachesAgentWithin 2 Node.prepare_claim_detail = true ∧
    staticEdge Node.prepare_claim_detail ≠ some Node.endNode :=
  nonterminating_paths_return_to_reasoner Node.prepare_claim_detail
    (Or.inr (Or.inl rfl))

/-- Counterexample to C5: a Proposed Action named `frobnicate` — a name
in neither the routing map nor the Tool Registry — is NOT met with an
`UnknownAction` error: the router's catch-all `else` branch sends it to
the generic `tools` node and no error outcome is produced. -/
theorem unknown_action_counterexample :
    shouldContinue ⟨[⟨Role.ai, "calling", some [⟨"frobnicate", []⟩]⟩]⟩
      = RouteResult.targets [Target.tools] ∧
    isRouteErr (shouldContinue ⟨[⟨Role.ai, "calling", some [⟨"frobnicate", []⟩]⟩]⟩)
      = false := by
  constructor
  · decide
  · decide

/-- C5 amended: a Proposed Action whose name is neither
`create_or_update_claim` nor `approve_payment` — recognized or not — is
routed to the generic tool dispatcher; the Router raises no error for
unknown names. -/
theorem unknown_name_routes_to_generic_dispatch (tc : ToolCall)
    (h1 : tc.name ≠ "create_or_update_claim")
    (h2 : tc.name ≠ "approve_payment") :
    routeToolCall tc = Target.tools := by
  unfold routeToolCall
  rw [if_neg h1, if_neg h2]

/-- Witness for the amended C5: the unregistered name `frobnicate` is
routed to the generic `tools` node. -/
theorem unknown_name_routes_to_generic_dispatch_witness :
    routeToolCall ⟨"frobnicate", []⟩ = Target.tools :=
  unknown_name_routes_to_generic_dispatch ⟨"frobnicate", []⟩
    (by decide) (by decide)

/-- Counterexample to C6: an assistant turn whose tool-call payload is
structurally malformed (an empty `tool_calls` array on an AI message that
announces a claim) makes the router silently return `END` — no
`InvariantViolation` is signalled. -/
theorem malformed_turn_silently_ends_counterexample :
    shouldContinue ⟨[⟨Role.ai, "creating the claim now", some []⟩]⟩
      = RouteResult.ends ∧
    isRouteErr (shouldContinue ⟨[⟨Role.ai, "creating the claim now", some []⟩]⟩)
      = false := by
  constructor
  · decide
  · decide

/-- C6 amended: the router's invariant-violation branch (the `throw` on
an empty `tool_calls` array) is unreachable: the preceding guard already
returns `END` whenever `tool_calls` is missing or empty, so for every
state the routing function never produces the error outcome and any turn
without tool calls terminates silently. -/
theorem router_invariant_branch_unreachable (s : AgentState) :
    isRouteErr (shouldContinue s) = false := by
  unfold shouldContinue
  cases hs : s.messages.getLast? with
  | none => rfl
  | some m => exact isRouteErr_routeTurn m

/-- C7: the entry point configures a step bound of 15, and a Reasoner
that always proposes actions (for instance one whose proposal is always
rejected by the gate) makes the run fail with the reported
step-bound-exceeded error rather than loop forever or fail silently. -/
theorem step_bound_exceeded_reported (reasoner : List Message → Message)
    (claimGate approvalGate : Gate) (execTool : ToolCall → String) (message : String)
    (h1 : ∀ msgs, (reasoner msgs).role = Role.ai)
    (h2 : ∀ msgs, toolCallsOf (reasoner msgs) ≠ []) :
    recursionLimit = 15 ∧
    chatRun reasoner claimGate approvalGate execTool message
      = Except.error RunError.stepBoundExceeded := by
  refine ⟨rfl, ?_⟩
  unfold chatRun
  rw [runLoop_always_proposing reasoner claimGate approvalGate execTool h1 h2
    recursionLimit [humanMessage message]]

/-- Witness for C7: a Reasoner that forever retries a claim update that
the gate always rejects ends in the step-bound error. -/
theorem step_bound_exceeded_reported_witness :
    chatRun (fun _ => ⟨Role.ai, "retrying", some [⟨"create_or_update_claim", []⟩]⟩)
      (fun _ _ => GateResult.reject "claimant identity")
      (fun _ _ => GateResult.reject "rule") (fun _ => "ok") "hi"
      = Except.error RunError.stepBoundExceeded :=
  (step_bound_exceeded_reported
    (fun _ => ⟨Role.ai, "retrying", some [⟨"create_or_update_claim", []⟩]⟩)
    (fun _ _ => GateResult.reject "claimant identity")
    (fun _ _ => GateResult.reject "rule") (fun _ => "ok") "hi"
    (fun _ => rfl) (fun _ => by simp [toolCallsOf])).2

/-- Counterexample to C8: the handler does not accept a `thread_id`
input — two requests carrying different `thread_id` query values are
both run under the module-level constant thread id `thread1`, so their
conversations are not independent. -/
theorem thread_id_hardcoded_counterexample :
    usedThreadId ⟨some "hello", some "alice-thread"⟩ = "thread1" ∧
    usedThreadId ⟨some "hello", some "bob-thread"⟩ = "thread1" :=
  ⟨rfl, rfl⟩

/-- C8 amended: the entry point accepts only the new user message; the
thread id is the hardcoded constant `thread1` for every request, so all
runs share a single conversation thread; once the run terminates the
handler responds with the final turn's content. -/
theorem entry_point_fixed_thread (reasoner : List Message → Message)
    (claimGate approvalGate : Gate) (execTool : ToolCall → String)
    (req : ChatRequest)
    (h2 : toolCallsOf (reasoner [humanMessage (req.messageParam.getD "")]) = []) :
    handleChat reasoner claimGate approvalGate execTool req
      = ("thread1",
        Except.ok (reasoner [humanMessage (req.messageParam.getD "")]).content) := by
  unfold handleChat usedThreadId
  rw [chatRun_no_calls reasoner claimGate approvalGate execTool
    (req.messageParam.getD "") h2]

/-- Witness for the amended C8: a request naming thread `alice-thread`
still runs under `thread1` and gets the Reasoner's answer back. -/
theorem entry_point_fixed_thread_witness :
    handleChat (fun _ => ⟨Role.ai, "hi there", none⟩)
      (fun _ _ => GateResult.reject "f") (fun _ _ => GateResult.reject "f")
      (fun _ => "") ⟨some "hello", some "alice-thread"⟩
      = ("thread1", Except.ok "hi there") :=
  entry_point_fixed_thread (fun _ => ⟨Role.ai, "hi there", none⟩)
    (fun _ _ => GateResult.reject "f") (fun _ _ => GateResult.reject "f")
    (fun _ => "") ⟨some "hello", some "alice-thread"⟩ rfl

/-- C9: the routing decision is deterministic and a pure function of the
input turn's content alone: on any state whose last message is `m` the
routing function computes exactly `routeTurn m`, so re-running it on the
same turn yields the same classification. -/
theorem routing_pure_function_of_turn (s : AgentState) (m : Message)
    (h : s.messages.getLast? = some m) :
    shouldContinue s = routeTurn m := by
  unfold shouldContinue
  rw [h]

/-- Witness for C9: on a one-message state the routing function computes
the turn's own classification. -/
theorem routing_pure_function_of_turn_witness :
    shouldContinue ⟨[⟨Role.ai, "done", none⟩]⟩
      = routeTurn ⟨Role.ai, "done", none⟩ :=
  routing_pure_function_of_turn ⟨[⟨Role.ai, "done", none⟩]⟩
    ⟨Role.ai, "done", none⟩ rfl

/-- C10: the routing decision depends only on the final message of the
state: any two states with equal last messages are routed identically,
whatever their earlier histories. -/
theorem routing_depends_only_on_last_message (s1 s2 : AgentState)
    (h : s1.messages.getLast? = s2.messages.getLast?) :
    shouldContinue s1 = shouldContinue s2 := by
  unfold shouldContinue
  rw [h]

/-- Witness for C10: a two-message history and a one-message history with
the same final message are routed identically. -/
theorem routing_depends_only_on_last_message_witness :
    shouldContinue ⟨[⟨Role.user, "hi", none⟩, ⟨Role.ai, "answer", none⟩]⟩
      = shouldContinue ⟨[⟨Role.ai, "answer", none⟩]⟩ :=
  routing_depends_only_on_last_message
    ⟨[⟨Role.user, "hi", none⟩, ⟨Role.ai, "answer", none⟩]⟩
    ⟨[⟨Role.ai, "answer", none⟩]⟩ (by decide)

end ClaimAgent
